import Mathlib

/-
Verification of the drone-mapping static site (FynnHer/drone).

Shallow embedding of the JavaScript sources:
  assets/js/map-viewer.js   (MapViewer: layers, annotations, toggles)
  assets/js/main.js         (project discovery, metadata fallback, theme, formatDate)
  assets/js/model-viewer.js (ModelViewer: loader selection and error fallback)

DOM and network effects are modelled as explicit state: the Leaflet map is a
list of attached handles (addLayer/removeLayer are idempotent set operations,
as in Leaflet), the checkbox controls are association lists keyed by element
id, and fetch results are supplied by environment records.  JavaScript objects
keyed by string (this.layers, this.annotations, localStorage) are association
lists in insertion order, since JS preserves insertion order for string keys
and property update keeps the original position.
-/

/-! ## Association lists (JS objects / localStorage) -/

/-- Read a property: `obj[id]`, `localStorage.getItem(k)`. -/
def getEntry {β : Type} (k : String) : List (String × β) → Option β
  | [] => none
  | (k', v) :: rest => if k' = k then some v else getEntry k rest

/-- Write a property: `obj[id] = v`, `localStorage.setItem(k, v)`.  An
existing key keeps its position (JS insertion-order semantics); a new key is
appended. -/
def setAssoc {β : Type} (k : String) (v : β) : List (String × β) → List (String × β)
  | [] => [(k, v)]
  | (k', v') :: rest => if k' = k then (k, v) :: rest else (k', v') :: setAssoc k v rest

/-- `document.querySelector` followed by `checkbox.checked = v`: updates the
entry only when the element exists, otherwise leaves the DOM unchanged. -/
def updCheckbox (k : String) (v : Bool) : List (String × Bool) → List (String × Bool)
  | [] => []
  | (k', v') :: rest => if k' = k then (k, v) :: rest else (k', v') :: updCheckbox k v rest

/-! ## JS value coercions used by the sources -/

/-- `options.visible !== false` (undefined counts as visible). -/
def jsVisibleDefaultTrue : Option Bool → Bool
  | some b => b
  | none => true

/-- `x || d` for an optional string (empty string is falsy in JS). -/
def jsOrStr : Option String → String → String
  | some s, d => if s = "" then d else s
  | none, d => d

/-- `!s` for a string read from storage (`null` or `""` are falsy). -/
def jsFalsyStr : Option String → Bool
  | none => true
  | some s => s = ""

/-- `type.toLowerCase()` (ASCII; the model types compared are ASCII). -/
def jsToLower (s : String) : String := String.mk (s.data.map Char.toLower)

/-! ## Leaflet map handle set

`map.addLayer` / `map.removeLayer` behave as idempotent set insertion and
removal on the set of attached layers; handles are abstracted as naturals. -/

def mapAddHandle (h : Nat) (m : List Nat) : List Nat :=
  if h ∈ m then m else m ++ [h]

def mapRemoveHandle (h : Nat) (m : List Nat) : List Nat :=
  m.filter (fun x => x != h)

/-! ## MapViewer (assets/js/map-viewer.js) -/

/-- Entry of `this.layers[id]` (map-viewer.js, addLayer). -/
structure LayerInfo where
  layer : Nat
  visible : Bool
  name : String
  type : String
deriving DecidableEq

/-- Entry of `this.annotations[id]` (map-viewer.js, addAnnotation). -/
structure AnnotationInfo where
  marker : Nat
  visible : Bool
  name : String
deriving DecidableEq

/-- The `options` argument of `addLayer`. -/
structure LayerOptions where
  visible : Option Bool := none
  name : Option String := none
  type : Option String := none

/-- State of a MapViewer instance together with the DOM pieces it touches. -/
structure MapViewer where
  layers : List (String × LayerInfo)
  annotations : List (String × AnnotationInfo)
  mapHandles : List Nat
  layerCheckboxes : List (String × Bool)
  annotationCheckboxes : List (String × Bool)
  hasLayersList : Bool

def MapViewer.empty : MapViewer :=
  { layers := [], annotations := [], mapHandles := []
    layerCheckboxes := [], annotationCheckboxes := [], hasLayersList := false }

/-- `updateLayerControls` (map-viewer.js:155-190): when the `layers-list`
element exists, rebuild all layer checkboxes from `this.layers`, base layers
first (the JS comparator under a stable sort is a stable partition on
`type === 'base'`); each checkbox has element id `layer-<id>` and reflects the
entry's visibility. -/
def buildLayerCheckboxes (ls : List (String × LayerInfo)) : List (String × Bool) :=
  ((ls.filter (fun p => p.2.type == "base")) ++
   (ls.filter (fun p => p.2.type != "base"))).map
    (fun p => ("layer-" ++ p.1, p.2.visible))

def updateLayerControls (s : MapViewer) : MapViewer :=
  if s.hasLayersList then
    { s with layerCheckboxes := buildLayerCheckboxes s.layers }
  else s

/-- `MapViewer.addLayer` (map-viewer.js:50-70): if the id already exists,
remove the previously stored handle from the map; store the new entry; add the
new handle to the map when the entry is visible; refresh the layer controls. -/
def addLayer (s : MapViewer) (id : String) (layer : Nat) (opts : LayerOptions) : MapViewer :=
  let removed : List Nat :=
    match getEntry id s.layers with
    | some old => mapRemoveHandle old.layer s.mapHandles
    | none => s.mapHandles
  let info : LayerInfo :=
    { layer := layer
      visible := jsVisibleDefaultTrue opts.visible
      name := jsOrStr opts.name id
      type := jsOrStr opts.type "overlay" }
  updateLayerControls
    { s with
      layers := setAssoc id info s.layers
      mapHandles := if info.visible then mapAddHandle layer removed else removed }

/-- `visible === undefined ? !layerInfo.visible : visible` (map-viewer.js:129). -/
def newVisible (old : Bool) : Option Bool → Bool
  | none => !old
  | some b => b

/-- `MapViewer.toggleLayer` (map-viewer.js:125-142): missing id returns with no
effect; otherwise flip or set the flag, attach or detach the stored handle,
and update the checkbox `#layer-<id>` when it exists. -/
def toggleLayer (s : MapViewer) (id : String) (visible : Option Bool) : MapViewer :=
  match getEntry id s.layers with
  | none => s
  | some info =>
    { s with
      layers := setAssoc id { info with visible := newVisible info.visible visible } s.layers
      mapHandles :=
        if newVisible info.visible visible
        then mapAddHandle info.layer s.mapHandles
        else mapRemoveHandle info.layer s.mapHandles
      layerCheckboxes :=
        updCheckbox ("layer-" ++ id) (newVisible info.visible visible) s.layerCheckboxes }

/-- `MapViewer.toggleAnnotation` (map-viewer.js:249-266): same shape as
`toggleLayer` over `this.annotations` and `#annotation-<id>`. -/
def toggleAnnotation (s : MapViewer) (id : String) (visible : Option Bool) : MapViewer :=
  match getEntry id s.annotations with
  | none => s
  | some info =>
    { s with
      annotations := setAssoc id { info with visible := newVisible info.visible visible } s.annotations
      mapHandles :=
        if newVisible info.visible visible
        then mapAddHandle info.marker s.mapHandles
        else mapRemoveHandle info.marker s.mapHandles
      annotationCheckboxes :=
        updCheckbox ("annotation-" ++ id) (newVisible info.visible visible) s.annotationCheckboxes }

/-! ## Project discovery (assets/js/main.js, fetchProjectFolders) -/

/-- `knownProjects` (main.js:234). -/
def knownProjects : List String := ["sample", "stettiner-str"]

/-- `possibleProjects` (main.js:243), probed via HEAD requests. -/
def possibleProjects : List String :=
  ["project-1", "project-2", "coastline-survey", "urban-mapping", "forest-survey"]

/-- URL probed for a candidate folder (main.js:246). -/
def projectIndexUrl (name : String) : String := "projects/" ++ name ++ "/index.html"

/-- The HEAD requests issued by `fetchProjectFolders`, in order. -/
def headRequestUrls : List String := possibleProjects.map projectIndexUrl

/-- Network environment for HEAD probes: the HTTP status for a URL, or `none`
for a network error (the code treats a thrown fetch like a missing folder). -/
structure HeadEnv where
  head : String → Option Nat

/-- `response.ok`: status in the 2xx range. -/
def responseOk : Option Nat → Bool
  | some status => decide (200 ≤ status ∧ status ≤ 299)
  | none => false

/-- `[...new Set(xs)]`: deduplicate keeping first occurrences.  `seen` is the
set of strings already emitted. -/
def jsSetDedupAux : List String → List String → List String
  | _, [] => []
  | seen, x :: rest =>
    if x ∈ seen then jsSetDedupAux seen rest
    else x :: jsSetDedupAux (x :: seen) rest

/-- `fetchProjectFolders` (main.js:230-263): the known folders, then every
probed candidate whose `index.html` HEAD request came back ok, deduplicated
via a JS `Set`. -/
def fetchProjectFolders (env : HeadEnv) : List String :=
  jsSetDedupAux []
    (knownProjects ++ possibleProjects.filter (fun n => responseOk (env.head (projectIndexUrl n))))

/-! ## Title extraction (main.js, fetchProjectMetadata)

`html.match(/<title>(.*?)<\/title>/i)`: leftmost match, case-insensitive tags,
non-greedy capture whose characters cannot be line terminators (JS `.`). -/

/-- Case-insensitive "the first list leads the second" (ASCII fold, matching
the `i` flag on ASCII tag names). -/
def ciLeads : List Char → List Char → Bool
  | [], _ => true
  | _ :: _, [] => false
  | p :: ps, c :: cs => (p.toLower == c.toLower) && ciLeads ps cs

def openTagChars : List Char := "<title>".data

def closeTagChars : List Char := "</title>".data

/-- JS line terminators, which `.` does not match. -/
def lineTerm (c : Char) : Bool :=
  c == '\n' || c == '\r' || c == Char.ofNat 8232 || c == Char.ofNat 8233

/-- Non-greedy capture: the shortest run of non-terminator characters followed
immediately by `</title>` (case-insensitive); `none` when no such run starts
here. -/
def readCapture : List Char → Option (List Char)
  | [] => none
  | c :: rest =>
    if ciLeads closeTagChars (c :: rest) then some []
    else if lineTerm c then none
    else (readCapture rest).map (fun cap => c :: cap)

/-- Leftmost match of the `<title>` regex: at each position where `<title>`
matches (case-insensitively), try the non-greedy capture; on failure resume
scanning one character further, as the JS regex engine does. -/
def findTitle : List Char → Option (List Char)
  | [] => none
  | c :: rest =>
    if ciLeads openTagChars (c :: rest) then
      match readCapture (List.drop openTagChars.length (c :: rest)) with
      | some cap => some cap
      | none => findTitle rest
    else findTitle rest

/-- `titleMatch ? titleMatch[1] : projectFolder` (main.js:280-281). -/
def extractTitle (html folder : String) : String :=
  match findTitle html.data with
  | some cap => String.mk cap
  | none => folder

/-! ## Project metadata (assets/js/main.js, fetchProjectMetadata) -/

/-- Fields a project metadata object can carry (external interface of
`metadata.json`; `center` stands for `mapSettings.center`).  The object built
from an `index.html` fallback carries only title, description and date. -/
structure ProjectMetadata where
  title : Option String := none
  description : Option String := none
  date : Option String := none
  location : Option String := none
  thumbnail : Option String := none
  center : Option String := none
deriving DecidableEq

/-- Fetch environment for metadata loading: the parsed `metadata.json` when
that fetch succeeds, the text of `index.html` when that fetch succeeds, and
today's date (`new Date().toISOString().split('T')[0]`). -/
structure FetchEnv where
  metadataJson : String → Option ProjectMetadata
  indexHtml : String → Option String
  today : String

/-- `fetchProjectMetadata` (main.js:265-296): prefer `metadata.json`; on
failure fall back to `index.html`, extracting a title with the `<title>` regex
and synthesising description and date; when both fail the promise rejects
(`none`). -/
def fetchProjectMetadata (env : FetchEnv) (folder : String) : Option ProjectMetadata :=
  match env.metadataJson folder with
  | some m => some m
  | none =>
    match env.indexHtml folder with
    | some html =>
      some { title := some (extractTitle html folder)
             description := some (extractTitle html folder ++ " mapping project")
             date := some env.today }
    | none => none

/-- The title-on-total-failure fallback in `loadProjectsDirectly`
(main.js:213): `folder.charAt(0).toUpperCase()` followed by `folder.slice(1)`
with every dash replaced by a space.
Note the replacement applies only to `slice(1)`. -/
def fallbackTitle (folder : String) : String :=
  match folder.data with
  | [] => ""
  | c :: rest => String.mk (c.toUpper :: rest.map (fun x => if x = '-' then ' ' else x))

/-- The title rendered on a project card by `loadProjectsDirectly`
(main.js:195-218): `metadata.title || projectFolder` on success, the titleized
folder name when `fetchProjectMetadata` rejects. -/
def projectCardTitle (env : FetchEnv) (folder : String) : String :=
  match fetchProjectMetadata env folder with
  | some m => jsOrStr m.title folder
  | none => fallbackTitle folder

/-- Modelled from the spec sentence of C3 ("the folder name titleized: first
character uppercased and every '-' replaced by a space"), for comparison with
`fallbackTitle`: replace every dash, then uppercase the first character. -/
def specTitleize (folder : String) : String :=
  match folder.data with
  | [] => ""
  | c :: rest =>
    String.mk ((if c = '-' then ' ' else c).toUpper :: rest.map (fun x => if x = '-' then ' ' else x))

/-- The amended C3 titleization: first character uppercased, and every '-'
after the first character replaced by a space. -/
def titleizeAmended (folder : String) : String :=
  match folder.data with
  | [] => ""
  | c :: rest => String.mk (c.toUpper :: rest.map (fun x => if x = '-' then ' ' else x))

/-! ## Substring helper (used to exhibit map-initialization code in a page) -/

def leadsWith : List Char → List Char → Bool
  | [], _ => true
  | _ :: _, [] => false
  | a :: as, b :: bs => (a == b) && leadsWith as bs

def containsSeq (needle : List Char) : List Char → Bool
  | [] => leadsWith needle []
  | c :: rest => leadsWith needle (c :: rest) || containsSeq needle rest

def strContainsSub (hay needle : String) : Bool := containsSeq needle.data hay.data

/-! ## Theme toggle (assets/js/main.js:156-181) -/

/-- Theme-relevant page state: browser local storage, the `data-theme`
attribute on `document.body`, and the `#theme-switch` checkbox. -/
structure ThemeState where
  storage : List (String × String)
  bodyDataTheme : Option String
  themeSwitchChecked : Bool

/-- The `change` handler of `#theme-switch` (main.js:169-177): checked sets
the dark attribute and stores `theme = dark`; unchecked removes the attribute
and stores `theme = light`. -/
def themeChange (s : ThemeState) (checked : Bool) : ThemeState :=
  if checked then
    { storage := setAssoc "theme" "dark" s.storage
      bodyDataTheme := some "dark"
      themeSwitchChecked := true }
  else
    { storage := setAssoc "theme" "light" s.storage
      bodyDataTheme := none
      themeSwitchChecked := false }

/-- The `DOMContentLoaded` theme initialisation (main.js:160-167):
`savedTheme === 'dark' || (!savedTheme && prefersDark)` applies the dark
attribute and checks the switch; otherwise both stay in their default state. -/
def themeLoad (prefersDark : Bool) (storage : List (String × String)) : ThemeState :=
  if getEntry "theme" storage = some "dark" ∨
     (jsFalsyStr (getEntry "theme" storage) = true ∧ prefersDark = true) then
    { storage := storage, bodyDataTheme := some "dark", themeSwitchChecked := true }
  else
    { storage := storage, bodyDataTheme := none, themeSwitchChecked := false }

/-! ## formatDate (assets/js/main.js:401-413 and the viewer controller copy) -/

/-- Host date behaviour: `new Date(s)` yields a time value or NaN, and
`toLocaleDateString(undefined, options with numeric year, short month, numeric
day)` renders a time value. -/
structure DateEnv where
  parseDate : String → Option Int
  localeFormat : Int → String

/-- `formatDate` (identical in main.js and the viewer controller): empty or
missing input gives `""`; an unparseable string is returned unchanged;
otherwise the locale rendering.  A total function: it never throws. -/
def formatDate (env : DateEnv) (dateString : Option String) : String :=
  match dateString with
  | none => ""
  | some s =>
    if s = "" then ""
    else
      match env.parseDate s with
      | none => s
      | some t => env.localeFormat t

/-! ## ModelViewer (assets/js/model-viewer.js) -/

/-- Objects the model slot can hold. -/
inductive SceneObj where
  | cube : SceneObj
  | loadedModel : String → SceneObj
deriving DecidableEq, BEq

/-- The error overlay built by `showError`; its markup always offers a Retry
button and a Show-Demo-Model button. -/
structure ErrorPanel where
  message : String
  hasRetryButton : Bool
  hasDemoButton : Bool
deriving DecidableEq

/-- Viewer state touched by the load routines. -/
structure ModelViewerState where
  scene : List SceneObj
  model : Option SceneObj
  loadingVisible : Bool
  errorPanel : Option ErrorPanel
  cubeAnimation : Bool

/-- Which loader globals are defined in the page. -/
structure ThreeEnv where
  hasOBJLoader : Bool
  hasGLTFLoader : Bool
  hasNewGLTFLoader : Bool
  resolveUrl : String → String

/-- Path normalisation (model-viewer.js:162-168): URLs and absolute paths are
kept, relative paths are resolved against the page URL. -/
def resolvePath (env : ThreeEnv) (path : String) : String :=
  if path.startsWith "http" || path.startsWith "/" then path else env.resolveUrl path

/-- `showError` (model-viewer.js:349-412): install the error overlay with its
Retry and Show-Demo-Model buttons and display it. -/
def showError (s : ModelViewerState) (msg : String) : ModelViewerState :=
  { s with errorPanel := some { message := msg, hasRetryButton := true, hasDemoButton := true } }

/-- `createDefaultCube` / `createCube`: put the animated placeholder cube into
the scene and the model slot. -/
def createDefaultCube (s : ModelViewerState) : ModelViewerState :=
  { s with model := some SceneObj.cube
           scene := s.scene ++ [SceneObj.cube]
           cubeAnimation := true }

/-- The common start of both load routines: remove the current model from the
scene and show the loading indicator. -/
def startLoad (s : ModelViewerState) : ModelViewerState :=
  let cleared :=
    match s.model with
    | some m => { s with scene := s.scene.filter (fun x => x != m), model := none }
    | none => s
  { cleared with loadingVisible := true }

/-- The `catch` path shared by both load routines: hide the loading indicator,
show the error panel, and fall back to the default cube; no load is issued. -/
def loadFailure (s : ModelViewerState) (msg : String) : ModelViewerState × Option String :=
  (createDefaultCube (showError { s with loadingVisible := false } msg), none)

/-- Loader availability tested by `loadSimpleModel` (model-viewer.js:150-159). -/
def simpleLoaderAvailable (env : ThreeEnv) (type : String) : Bool :=
  (jsToLower type == "obj" && env.hasOBJLoader) ||
  ((jsToLower type == "gltf" || jsToLower type == "glb") && env.hasGLTFLoader)

/-- Loader availability tested by `loadModelWithDraco` (model-viewer.js:588-624). -/
def dracoLoaderAvailable (env : ThreeEnv) (type : String) : Bool :=
  (jsToLower type == "obj" && env.hasOBJLoader) ||
  ((jsToLower type == "gltf" || jsToLower type == "glb") &&
   (env.hasNewGLTFLoader || env.hasGLTFLoader))

/-- `ModelViewer.loadSimpleModel` (model-viewer.js:136-215), synchronous part:
clear the model, show the loading indicator, pick a loader and start the
asynchronous load (second component: the resolved path handed to the loader),
or take the failure path when no loader handles the type. -/
def loadSimpleModel (env : ThreeEnv) (s : ModelViewerState) (path type : String) :
    ModelViewerState × Option String :=
  let s1 := startLoad s
  if jsToLower type == "obj" && env.hasOBJLoader then
    (s1, some (resolvePath env path))
  else if (jsToLower type == "gltf" || jsToLower type == "glb") && env.hasGLTFLoader then
    (s1, some (resolvePath env path))
  else
    loadFailure s1 ("Error setting up model loader: Loader for " ++ type ++ " not available")

/-- `ModelViewer.loadModelWithDraco` (model-viewer.js:574-703), synchronous
part, same shape; the gltf/glb branch throws `GLTFLoader not available` when
neither GLTF loader global exists. -/
def loadModelWithDraco (env : ThreeEnv) (s : ModelViewerState) (path type : String) :
    ModelViewerState × Option String :=
  let s1 := startLoad s
  if jsToLower type == "obj" && env.hasOBJLoader then
    (s1, some (resolvePath env path))
  else if jsToLower type == "gltf" || jsToLower type == "glb" then
    if env.hasNewGLTFLoader || env.hasGLTFLoader then
      (s1, some (resolvePath env path))
    else
      loadFailure s1 "Error setting up model loader: GLTFLoader not available"
  else
    loadFailure s1 ("Error setting up model loader: Loader for " ++ type ++ " not available")

/-- True when the error overlay is shown and offers both recovery actions. -/
def errorShownWithActions (s : ModelViewerState) : Bool :=
  match s.errorPanel with
  | some ep => ep.hasRetryButton && ep.hasDemoButton
  | none => false

/-! ## Concrete states and environments used in counterexamples and witnesses -/

/-- A viewer state reached from the empty viewer by three `addLayer` calls in
which two identifiers were at some point bound to the same Leaflet handle:
after replacing `b`, handle 0 is no longer attached although entry `a` is
still marked visible. -/
def aliasedState : MapViewer :=
  addLayer (addLayer (addLayer MapViewer.empty "a" 0 {}) "b" 0 {}) "b" 1 {}

/-- A small consistent viewer state: one visible layer `x` with handle 3. -/
def oneLayerState : MapViewer := addLayer MapViewer.empty "x" 3 {}

/-- A consistent viewer state with one layer, one annotation, and both
checkbox controls present in the DOM. -/
def fullViewerState : MapViewer :=
  { layers := [("a", { layer := 5, visible := true, name := "a", type := "overlay" })]
    annotations := [("a", { marker := 7, visible := true, name := "a" })]
    mapHandles := [5, 7]
    layerCheckboxes := [("layer-a", true)]
    annotationCheckboxes := [("annotation-a", true)]
    hasLayersList := true }

/-- A fetch environment in which every request fails. -/
def envNoMeta : FetchEnv :=
  { metadataJson := fun _ => none, indexHtml := fun _ => none, today := "2026-10-11" }

/-- An environment in which every HEAD probe answers 200. -/
def headEnvAll200 : HeadEnv := { head := fun _ => some 200 }

/-- A project page whose HTML carries both a `<title>` tag and embedded
map-initialization code with a center coordinate. -/
def htmlWithCenter : String :=
  "<html><head><title>Site</title></head><body><script>var map = L.map(\"map\").setView([51.5, 7.0], 13);</script></body></html>"

/-- Fetch environment for the page above: `metadata.json` is missing,
`index.html` succeeds for project `proj`. -/
def envHtmlOnly : FetchEnv :=
  { metadataJson := fun _ => none
    indexHtml := fun f => if f = "proj" then some htmlWithCenter else none
    today := "2026-10-11" }

/-- Fetch environment whose `index.html` for project `p` is a bare title tag. -/
def envTitleOnly : FetchEnv :=
  { metadataJson := fun _ => none
    indexHtml := fun f => if f = "p" then some "<title>Drone Site</title>" else none
    today := "2026-01-02" }

/-- A page in which every loader global is defined. -/
def threeEnvAll : ThreeEnv :=
  { hasOBJLoader := true, hasGLTFLoader := true, hasNewGLTFLoader := true
    resolveUrl := fun p => p }

/-- A fresh model-viewer state. -/
def mvInit : ModelViewerState :=
  { scene := [], model := none, loadingVisible := false, errorPanel := none
    cubeAnimation := false }

/-- A date environment recognising a single date string. -/
def dateEnvOne : DateEnv :=
  { parseDate := fun s => if s = "2025-07-15" then some 0 else none
    localeFormat := fun _ => "Jul 15, 2025" }

/-! ## Helper lemmas -/

theorem getEntry_setAssoc {β : Type} (k : String) (v : β) :
    ∀ l : List (String × β), getEntry k (setAssoc k v l) = some v := by
  intro l
  induction l with
  | nil => simp [setAssoc, getEntry]
  | cons p rest ih =>
    obtain ⟨k', v'⟩ := p
    by_cases hk : k' = k
    · simp [setAssoc, getEntry, hk]
    · simp [setAssoc, getEntry, hk, ih]

theorem setAssoc_setAssoc {β : Type} (k : String) (v w : β) :
    ∀ l : List (String × β), setAssoc k v (setAssoc k w l) = setAssoc k v l := by
  intro l
  induction l with
  | nil => simp [setAssoc]
  | cons p rest ih =>
    obtain ⟨k', v'⟩ := p
    by_cases hk : k' = k
    · simp [setAssoc, hk]
    · simp [setAssoc, hk, ih]

theorem getEntry_updCheckbox (k : String) (b : Bool) :
    ∀ l : List (String × Bool), getEntry k (updCheckbox k b l) = (getEntry k l).map (fun _ => b) := by
  intro l
  induction l with
  | nil => simp [updCheckbox, getEntry]
  | cons p rest ih =>
    obtain ⟨k', v'⟩ := p
    by_cases hk : k' = k
    · simp [updCheckbox, getEntry, hk]
    · simp [updCheckbox, getEntry, hk, ih]

theorem mem_mapAddHandle_self (h : Nat) (m : List Nat) : h ∈ mapAddHandle h m := by
  unfold mapAddHandle
  split
  · assumption
  · simp

theorem not_mem_mapRemoveHandle_self (h : Nat) (m : List Nat) : h ∉ mapRemoveHandle h m := by
  simp [mapRemoveHandle]

theorem updateLayerControls_layers (s : MapViewer) :
    (updateLayerControls s).layers = s.layers := by
  unfold updateLayerControls
  split <;> rfl

theorem updateLayerControls_mapHandles (s : MapViewer) :
    (updateLayerControls s).mapHandles = s.mapHandles := by
  unfold updateLayerControls
  split <;> rfl

theorem mem_jsSetDedupAux (a : String) :
    ∀ (l seen : List String), a ∈ jsSetDedupAux seen l ↔ (a ∈ l ∧ a ∉ seen) := by
  intro l
  induction l with
  | nil => intro seen; simp [jsSetDedupAux]
  | cons x rest ih =>
    intro seen
    by_cases hx : x ∈ seen
    · rw [jsSetDedupAux, if_pos hx, ih]
      simp only [List.mem_cons]
      constructor
      · rintro ⟨h1, h2⟩
        exact ⟨Or.inr h1, h2⟩
      · rintro ⟨h1 | h1, h2⟩
        · exact absurd (h1 ▸ hx) h2
        · exact ⟨h1, h2⟩
    · rw [jsSetDedupAux, if_neg hx]
      simp only [List.mem_cons, ih, List.mem_cons]
      constructor
      · rintro (rfl | ⟨h1, h2⟩)
        · exact ⟨Or.inl rfl, hx⟩
        · push_neg at h2
          exact ⟨Or.inr h1, h2.2⟩
      · rintro ⟨rfl | h1, h2⟩
        · exact Or.inl rfl
        · by_cases hax : a = x
          · exact Or.inl hax
          · exact Or.inr ⟨h1, by simp [hax, h2]⟩

theorem nodup_jsSetDedupAux :
    ∀ (l seen : List String), (jsSetDedupAux seen l).Nodup := by
  intro l
  induction l with
  | nil => intro seen; simp [jsSetDedupAux]
  | cons x rest ih =>
    intro seen
    by_cases hx : x ∈ seen
    · rw [jsSetDedupAux, if_pos hx]
      exact ih seen
    · rw [jsSetDedupAux, if_neg hx]
      refine List.nodup_cons.mpr ⟨?_, ih (x :: seen)⟩
      intro hmem
      rw [mem_jsSetDedupAux] at hmem
      exact hmem.2 (List.mem_cons_self x seen)

/-! ## C9: toggling a missing identifier is a no-op -/

/-- C9: for every identifier not present in the corresponding mapping,
`toggleLayer` and `toggleAnnotation` return without error and leave the whole
viewer state (both mappings, the attached layers, and all checkboxes)
unchanged. -/
theorem toggle_missing_id_noop (s : MapViewer) (id : String) (v : Option Bool) :
    (getEntry id s.layers = none → toggleLayer s id v = s) ∧
    (getEntry id s.annotations = none → toggleAnnotation s id v = s) := by
  constructor
  · intro h
    simp [toggleLayer, h]
  · intro h
    simp [ toggleAnnotation, h]

/-- Witness for C9 at the empty viewer and identifier `z`. -/
theorem toggle_missing_id_noop_witness :
    getEntry "z" MapViewer.empty.layers = none ∧
    getEntry "z" MapViewer.empty.annotations = none ∧
    toggleLayer MapViewer.empty "z" none = MapViewer.empty ∧
    toggleAnnotation MapViewer.empty "z" none = MapViewer.empty := by
  refine ⟨rfl, rfl, ?_, ?_⟩
  · exact (toggle_missing_id_noop MapViewer.empty "z" none).1 rfl
  · exact (toggle_missing_id_noop MapViewer.empty "z" none).2 rfl

/-! ## C7: the three representations agree after a toggle -/

/-- C7: after `toggleLayer(id, v)` or `toggleAnnotation(id, v)` on an existing
identifier, the stored visibility flag equals `v` (or the negation of the old
flag when `v` is omitted), the handle is attached to the map exactly when the
flag is true, and the associated checkbox (when it exists) equals the flag. -/
theorem toggle_synchronizes_representations (s : MapViewer) (id : String) (v : Option Bool) :
    (∀ info : LayerInfo, getEntry id s.layers = some info →
      getEntry id (toggleLayer s id v).layers =
        some { info with visible := newVisible info.visible v } ∧
      (((info.layer ∈ (toggleLayer s id v).mapHandles)) ↔ newVisible info.visible v = true) ∧
      getEntry ("layer-" ++ id) (toggleLayer s id v).layerCheckboxes =
        (getEntry ("layer-" ++ id) s.layerCheckboxes).map (fun _ => newVisible info.visible v)) ∧
    (∀ info : AnnotationInfo, getEntry id s.annotations = some info →
      getEntry id ( toggleAnnotation s id v).annotations =
        some { info with visible := newVisible info.visible v } ∧
      (((info.marker ∈ ( toggleAnnotation s id v).mapHandles)) ↔ newVisible info.visible v = true) ∧
      getEntry ("annotation-" ++ id) ( toggleAnnotation s id v).annotationCheckboxes =
        (getEntry ("annotation-" ++ id) s.annotationCheckboxes).map
          (fun _ => newVisible info.visible v)) := by
  constructor
  · intro info h
    refine ⟨?_, ?_, ?_⟩
    · simp [toggleLayer, h, getEntry_setAssoc]
    · cases hnv : newVisible info.visible v
      · simp [toggleLayer, h, hnv, not_mem_mapRemoveHandle_self]
      · simp [toggleLayer, h, hnv, mem_mapAddHandle_self]
    · simp [toggleLayer, h, getEntry_updCheckbox]
  · intro info h
    refine ⟨?_, ?_, ?_⟩
    · simp [ toggleAnnotation, h, getEntry_setAssoc]
    · cases hnv : newVisible info.visible v
      · simp [ toggleAnnotation, h, hnv, not_mem_mapRemoveHandle_self]
      · simp [ toggleAnnotation, h, hnv, mem_mapAddHandle_self]
    · simp [ toggleAnnotation, h, getEntry_updCheckbox]

/-- Witness for C7 on a state with one layer, one annotation and both
checkboxes present. -/
theorem toggle_synchronizes_representations_witness :
    getEntry "a" fullViewerState.layers =
      some { layer := 5, visible := true, name := "a", type := "overlay" } ∧
    getEntry "a" fullViewerState.annotations =
      some { marker := 7, visible := true, name := "a" } ∧
    (getEntry "a" (toggleLayer fullViewerState "a" none).layers =
      some { layer := 5, visible := false, name := "a", type := "overlay" } ∧
     (((5 : Nat) ∈ (toggleLayer fullViewerState "a" none).mapHandles) ↔ false = true) ∧
     getEntry "layer-a" (toggleLayer fullViewerState "a" none).layerCheckboxes =
       (getEntry "layer-a" fullViewerState.layerCheckboxes).map (fun _ => false)) ∧
    (getEntry "a" ( toggleAnnotation fullViewerState "a" none).annotations =
      some { marker := 7, visible := false, name := "a" } ∧
     (((7 : Nat) ∈ ( toggleAnnotation fullViewerState "a" none).mapHandles) ↔ false = true) ∧
     getEntry "annotation-a" ( toggleAnnotation fullViewerState "a" none).annotationCheckboxes =
       (getEntry "annotation-a" fullViewerState.annotationCheckboxes).map (fun _ => false)) := by
  have h1 := (toggle_synchronizes_representations fullViewerState "a" none).1
    { layer := 5, visible := true, name := "a", type := "overlay" } (by decide)
  have h2 := (toggle_synchronizes_representations fullViewerState "a" none).2
    { marker := 7, visible := true, name := "a" } (by decide)
  exact ⟨by decide, by decide, h1, h2⟩

/-! ## C2: addLayer on an existing identifier replaces it -/

/-- C2: for an identifier already present, `addLayer(id, newLayer, options)`
first removes the previously stored handle from the map view, then stores the
new entry (layer, visible, name, type) under the id, and adds the new handle
to the map exactly when the new entry's visible flag is true. -/
theorem addLayer_replaces_existing (s : MapViewer) (id : String) (l : Nat)
    (opts : LayerOptions) (old : LayerInfo) (h : getEntry id s.layers = some old) :
    getEntry id (addLayer s id l opts).layers =
      some { layer := l, visible := jsVisibleDefaultTrue opts.visible
             name := jsOrStr opts.name id, type := jsOrStr opts.type "overlay" } ∧
    (addLayer s id l opts).mapHandles =
      (if jsVisibleDefaultTrue opts.visible
       then mapAddHandle l (mapRemoveHandle old.layer s.mapHandles)
       else mapRemoveHandle old.layer s.mapHandles) := by
  constructor
  · simp [addLayer, h, updateLayerControls_layers, getEntry_setAssoc]
  · simp [addLayer, h, updateLayerControls_mapHandles]

/-- Witness for C2: replace the visible layer `x` (handle 3) by handle 4 with
`visible: false`; the old handle leaves the map and the new one is not added. -/
theorem addLayer_replaces_existing_witness :
    getEntry "x" oneLayerState.layers =
      some { layer := 3, visible := true, name := "x", type := "overlay" } ∧
    getEntry "x" (addLayer oneLayerState "x" 4 { visible := some false }).layers =
      some { layer := 4, visible := jsVisibleDefaultTrue (some false)
             name := jsOrStr none "x", type := jsOrStr none "overlay" } ∧
    (addLayer oneLayerState "x" 4 { visible := some false }).mapHandles =
      (if jsVisibleDefaultTrue (some false)
       then mapAddHandle 4 (mapRemoveHandle 3 oneLayerState.mapHandles)
       else mapRemoveHandle 3 oneLayerState.mapHandles) := by
  have h := addLayer_replaces_existing oneLayerState "x" 4 { visible := some false }
    { layer := 3, visible := true, name := "x", type := "overlay" } (by decide)
  exact ⟨by decide, h.1, h.2⟩

/-! ## C1: toggling twice (corrected) -/

/-- C1 counterexample: in the state `aliasedState`, reached from the empty
viewer by three public `addLayer` calls, entry `a` is marked visible while its
handle 0 is not attached (replacing `b` removed the shared handle).  Toggling
`a` twice restores the visibility flag but attaches handle 0, so its presence
on the map does not return to the value it had before the first call. -/
theorem toggleLayer_twice_presence_cex :
    (getEntry "a" aliasedState.layers).map LayerInfo.visible = some true ∧
    (0 : Nat) ∉ aliasedState.mapHandles ∧
    (getEntry "a" (toggleLayer (toggleLayer aliasedState "a" none) "a" none).layers).map
      LayerInfo.visible = some true ∧
    (0 : Nat) ∈ (toggleLayer (toggleLayer aliasedState "a" none) "a" none).mapHandles ∧
    ¬ (((0 : Nat) ∈ (toggleLayer (toggleLayer aliasedState "a" none) "a" none).mapHandles) ↔
       ((0 : Nat) ∈ aliasedState.mapHandles)) := by
  decide

/-- C1 (amended): for an identifier present in the layer mapping, toggling
twice with the visible argument omitted always returns the stored entry (in
particular its visibility flag) to its original value; and provided the
layer's presence on the map agreed with its visibility flag before the first
call, its presence on the map is restored as well. -/
theorem toggleLayer_twice_restores (s : MapViewer) (id : String) (info : LayerInfo)
    (h : getEntry id s.layers = some info) :
    getEntry id (toggleLayer (toggleLayer s id none) id none).layers = some info ∧
    (((info.layer ∈ s.mapHandles) ↔ info.visible = true) →
      (((info.layer ∈ (toggleLayer (toggleLayer s id none) id none).mapHandles)) ↔
        (info.layer ∈ s.mapHandles))) := by
  obtain ⟨L, V, N, T⟩ := info
  set t1 := toggleLayer s id none with ht1
  have h1 : getEntry id t1.layers = some { layer := L, visible := !V, name := N, type := T } := by
    rw [ht1]
    simp [toggleLayer, h, newVisible, getEntry_setAssoc]
  have hm1 : t1.mapHandles =
      if !V then mapAddHandle L s.mapHandles else mapRemoveHandle L s.mapHandles := by
    rw [ht1]
    simp [toggleLayer, h, newVisible]
  have h2 : getEntry id (toggleLayer t1 id none).layers =
      some { layer := L, visible := !(!V), name := N, type := T } := by
    simp [toggleLayer, h1, newVisible, getEntry_setAssoc]
  have hm2 : (toggleLayer t1 id none).mapHandles =
      if !(!V) then mapAddHandle L t1.mapHandles else mapRemoveHandle L t1.mapHandles := by
    simp [toggleLayer, h1, newVisible]
  rw [Bool.not_not] at h2 hm2
  constructor
  · exact h2
  · intro hpres
    cases V with
    | true =>
      have e : (toggleLayer t1 id none).mapHandles =
          mapAddHandle L (mapRemoveHandle L s.mapHandles) := by
        rw [hm2, hm1]
        simp
      rw [e]
      exact ⟨fun _ => hpres.mpr rfl, fun _ => mem_mapAddHandle_self L _⟩
    | false =>
      have e : (toggleLayer t1 id none).mapHandles =
          mapRemoveHandle L (mapAddHandle L s.mapHandles) := by
        rw [hm2, hm1]
        simp
      rw [e]
      constructor
      · intro hin
        exact absurd hin (not_mem_mapRemoveHandle_self L _)
      · intro hin
        exact absurd (hpres.mp hin) (by simp)

/-- Witness for C1 on the consistent one-layer state. -/
theorem toggleLayer_twice_restores_witness :
    getEntry "x" oneLayerState.layers =
      some { layer := 3, visible := true, name := "x", type := "overlay" } ∧
    (((3 : Nat) ∈ oneLayerState.mapHandles) ↔ true = true) ∧
    getEntry "x" (toggleLayer (toggleLayer oneLayerState "x" none) "x" none).layers =
      some { layer := 3, visible := true, name := "x", type := "overlay" } ∧
    (((3 : Nat) ∈ (toggleLayer (toggleLayer oneLayerState "x" none) "x" none).mapHandles) ↔
      ((3 : Nat) ∈ oneLayerState.mapHandles)) := by
  have h := toggleLayer_twice_restores oneLayerState "x"
    { layer := 3, visible := true, name := "x", type := "overlay" } (by decide)
  exact ⟨by decide, by decide, h.1, h.2 (by decide)⟩

/-! ## C3: fallback title on total failure (corrected) -/

/-- C3 counterexample: for the folder name `-x` (both fetches failing) the
rendered card title is `-x` — the leading dash is not replaced, because the
code applies the replacement only to `slice(1)` — while the claimed
titleization (`every '-' replaced by a space`) yields ` x`. -/
theorem fallback_title_leading_dash_cex :
    envNoMeta.metadataJson "-x" = none ∧
    envNoMeta.indexHtml "-x" = none ∧
    projectCardTitle envNoMeta "-x" = "-x" ∧
    specTitleize "-x" = " x" ∧
    projectCardTitle envNoMeta "-x" ≠ specTitleize "-x" := by
  refine ⟨rfl, rfl, ?_, ?_, ?_⟩ <;> decide

/-- C3 (amended): when both the `metadata.json` fetch and the `index.html`
fallback fail, the card title is the folder name with its first character
uppercased and every '-' after the first character replaced by a space. -/
theorem fallback_title_titleizes (env : FetchEnv) (folder : String)
    (h1 : env.metadataJson folder = none) (h2 : env.indexHtml folder = none) :
    projectCardTitle env folder = titleizeAmended folder := by
  simp only [projectCardTitle, fetchProjectMetadata, h1, h2]
  rfl

/-- Witness for C3 at the spec's own example folder name. -/
theorem fallback_title_titleizes_witness :
    envNoMeta.metadataJson "stettiner-str" = none ∧
    envNoMeta.indexHtml "stettiner-str" = none ∧
    projectCardTitle envNoMeta "stettiner-str" = titleizeAmended "stettiner-str" ∧
    titleizeAmended "stettiner-str" = "Stettiner str" := by
  exact ⟨rfl, rfl, fallback_title_titleizes envNoMeta "stettiner-str" rfl rfl, by decide⟩

/-! ## C4: project discovery -/

/-- C4: every name in the fixed candidate list has a HEAD request issued for
its `index.html`, is included in the discovered folders exactly when that
response is 2xx, and the returned folder list has no duplicates. -/
theorem fetchProjectFolders_spec (env : HeadEnv) (name : String)
    (h : name ∈ possibleProjects) :
    (projectIndexUrl name ∈ headRequestUrls) ∧
    ((name ∈ fetchProjectFolders env) ↔
      responseOk (env.head (projectIndexUrl name)) = true) ∧
    (fetchProjectFolders env).Nodup := by
  have hknown : name ∉ knownProjects := by
    have h' := h
    simp only [possibleProjects, List.mem_cons, List.not_mem_nil, or_false] at h'
    rcases h' with rfl | rfl | rfl | rfl | rfl <;> decide
  refine ⟨List.mem_map_of_mem projectIndexUrl h, ?_, nodup_jsSetDedupAux _ _⟩
  rw [show fetchProjectFolders env =
        jsSetDedupAux []
          (knownProjects ++
            possibleProjects.filter (fun n => responseOk (env.head (projectIndexUrl n))))
      from rfl]
  rw [mem_jsSetDedupAux]
  simp [List.mem_append, List.mem_filter, hknown, h]

/-- Witness for C4 with every probe answering 200. -/
theorem fetchProjectFolders_spec_witness :
    ("project-1" ∈ possibleProjects) ∧
    (projectIndexUrl "project-1" ∈ headRequestUrls) ∧
    (("project-1" ∈ fetchProjectFolders headEnvAll200) ↔
      responseOk (headEnvAll200.head (projectIndexUrl "project-1")) = true) ∧
    (fetchProjectFolders headEnvAll200).Nodup := by
  exact ⟨by decide, fetchProjectFolders_spec headEnvAll200 "project-1" (by decide)⟩

/-! ## C5: metadata fallback from index.html (corrected) -/

/-- C5 counterexample: `metadata.json` fails and `index.html` succeeds with a
page whose body visibly contains map-initialization code with a center
coordinate; `fetchProjectMetadata` returns a metadata object, but that object
carries no center at all — the function extracts only the title. -/
theorem fetchProjectMetadata_no_center_cex :
    envHtmlOnly.metadataJson "proj" = none ∧
    envHtmlOnly.indexHtml "proj" = some htmlWithCenter ∧
    strContainsSub htmlWithCenter "setView([51.5, 7.0], 13)" = true ∧
    (fetchProjectMetadata envHtmlOnly "proj").map ProjectMetadata.center = some none ∧
    (fetchProjectMetadata envHtmlOnly "proj").map (fun m => m.title) =
      some (some "Site") := by
  refine ⟨rfl, rfl, ?_, ?_, ?_⟩ <;> decide

/-- C5 (amended): when the `metadata.json` fetch fails but the `index.html`
fetch succeeds, `fetchProjectMetadata` returns exactly a title extracted by
the `<title>` regex (defaulting to the folder name when there is no match), a
description derived from that title, and today's date — and no center
coordinate. -/
theorem fetchProjectMetadata_html_fallback (env : FetchEnv) (folder html : String)
    (h1 : env.metadataJson folder = none) (h2 : env.indexHtml folder = some html) :
    fetchProjectMetadata env folder =
      some { title := some (extractTitle html folder)
             description := some (extractTitle html folder ++ " mapping project")
             date := some env.today
             location := none, thumbnail := none, center := none } ∧
    (findTitle html.data = none → extractTitle html folder = folder) := by
  constructor
  · simp [fetchProjectMetadata, h1, h2]
  · intro hn
    simp [extractTitle, hn]

/-- Witness for C5 on a page consisting of a bare title tag. -/
theorem fetchProjectMetadata_html_fallback_witness :
    envTitleOnly.metadataJson "p" = none ∧
    envTitleOnly.indexHtml "p" = some "<title>Drone Site</title>" ∧
    fetchProjectMetadata envTitleOnly "p" =
      some { title := some (extractTitle "<title>Drone Site</title>" "p")
             description := some (extractTitle "<title>Drone Site</title>" "p" ++ " mapping project")
             date := some envTitleOnly.today
             location := none, thumbnail := none, center := none } ∧
    extractTitle "<title>Drone Site</title>" "p" = "Drone Site" := by
  refine ⟨rfl, rfl,
    (fetchProjectMetadata_html_fallback envTitleOnly "p" "<title>Drone Site</title>" rfl rfl).1,
    by decide⟩

/-! ## C6: unsupported model type falls back to the default cube -/

/-- C6: for every model type not handled by an available loader, both load
routines hide the loading indicator, show the error panel offering the retry
and demo actions, fall back to the default animated cube as the displayed
model, and issue no load. -/
theorem unsupported_type_falls_back_to_cube (env : ThreeEnv) (s : ModelViewerState)
    (path type : String)
    (h1 : simpleLoaderAvailable env type = false)
    (h2 : dracoLoaderAvailable env type = false) :
    ((loadSimpleModel env s path type).1.loadingVisible = false ∧
     errorShownWithActions (loadSimpleModel env s path type).1 = true ∧
     (loadSimpleModel env s path type).1.model = some SceneObj.cube ∧
     (loadSimpleModel env s path type).1.cubeAnimation = true ∧
     (loadSimpleModel env s path type).2 = none) ∧
    ((loadModelWithDraco env s path type).1.loadingVisible = false ∧
     errorShownWithActions (loadModelWithDraco env s path type).1 = true ∧
     (loadModelWithDraco env s path type).1.model = some SceneObj.cube ∧
     (loadModelWithDraco env s path type).1.cubeAnimation = true ∧
     (loadModelWithDraco env s path type).2 = none) := by
  rw [simpleLoaderAvailable, Bool.or_eq_false_iff] at h1
  rw [dracoLoaderAvailable, Bool.or_eq_false_iff] at h2
  constructor
  · simp [loadSimpleModel, h1.1, h1.2, loadFailure, createDefaultCube, showError,
      errorShownWithActions]
  · rcases Bool.and_eq_false_iff.mp h2.2 with hg | hl
    · simp [loadModelWithDraco, h2.1, hg, loadFailure, createDefaultCube, showError,
        errorShownWithActions]
    · by_cases hg : (jsToLower type == "gltf" || jsToLower type == "glb") = true
      · simp [loadModelWithDraco, h2.1, hg, hl, loadFailure, createDefaultCube, showError,
          errorShownWithActions]
      · simp [loadModelWithDraco, h2.1, Bool.not_eq_true .. ▸ hg, loadFailure,
          createDefaultCube, showError, errorShownWithActions]

/-- Witness for C6: type `stl` is unsupported even with every loader global
defined. -/
theorem unsupported_type_falls_back_to_cube_witness :
    simpleLoaderAvailable threeEnvAll "stl" = false ∧
    dracoLoaderAvailable threeEnvAll "stl" = false ∧
    (((loadSimpleModel threeEnvAll mvInit "model.stl" "stl").1.loadingVisible = false ∧
      errorShownWithActions (loadSimpleModel threeEnvAll mvInit "model.stl" "stl").1 = true ∧
      (loadSimpleModel threeEnvAll mvInit "model.stl" "stl").1.model = some SceneObj.cube ∧
      (loadSimpleModel threeEnvAll mvInit "model.stl" "stl").1.cubeAnimation = true ∧
      (loadSimpleModel threeEnvAll mvInit "model.stl" "stl").2 = none) ∧
     ((loadModelWithDraco threeEnvAll mvInit "model.stl" "stl").1.loadingVisible = false ∧
      errorShownWithActions (loadModelWithDraco threeEnvAll mvInit "model.stl" "stl").1 = true ∧
      (loadModelWithDraco threeEnvAll mvInit "model.stl" "stl").1.model = some SceneObj.cube ∧
      (loadModelWithDraco threeEnvAll mvInit "model.stl" "stl").1.cubeAnimation = true ∧
      (loadModelWithDraco threeEnvAll mvInit "model.stl" "stl").2 = none)) := by
  refine ⟨by decide, by decide, ?_⟩
  exact unsupported_type_falls_back_to_cube threeEnvAll mvInit "model.stl" "stl"
    (by decide) (by decide)

/-! ## C8: theme toggle round trip -/

/-- C8: a change event with the switch checked stores the single key `theme`
with value `dark` (unchecked stores `light`) and applies or removes the dark
attribute accordingly; on a subsequent page load a stored `dark` value applies
the dark theme attribute and checks the switch, regardless of the system
color-scheme preference. -/
theorem theme_toggle_round_trip (s : ThemeState) (prefersDark : Bool) :
    (themeChange s true).storage = setAssoc "theme" "dark" s.storage ∧
    (themeChange s true).bodyDataTheme = some "dark" ∧
    (themeChange s false).storage = setAssoc "theme" "light" s.storage ∧
    (themeChange s false).bodyDataTheme = none ∧
    getEntry "theme" (themeChange s true).storage = some "dark" ∧
    (themeLoad prefersDark (themeChange s true).storage).bodyDataTheme = some "dark" ∧
    (themeLoad prefersDark (themeChange s true).storage).themeSwitchChecked = true := by
  refine ⟨rfl, rfl, rfl, rfl, ?_, ?_, ?_⟩
  · simp [themeChange, getEntry_setAssoc]
  · simp [themeLoad, themeChange, getEntry_setAssoc]
  · simp [themeLoad, themeChange, getEntry_setAssoc]

/-! ## C10: formatDate is total -/

/-- C10: `formatDate` returns the empty string for a missing or empty input,
returns the input unchanged when it does not parse as a valid date, and
otherwise returns the locale-formatted rendering; as a total function of the
date environment it never throws. -/
theorem formatDate_total_spec (env : DateEnv) :
    formatDate env none = "" ∧
    formatDate env (some "") = "" ∧
    (∀ s : String, s ≠ "" → env.parseDate s = none → formatDate env (some s) = s) ∧
    (∀ (s : String) (t : Int), s ≠ "" → env.parseDate s = some t →
      formatDate env (some s) = env.localeFormat t) := by
  refine ⟨rfl, rfl, ?_, ?_⟩
  · intro s hs hp
    simp [formatDate, hs, hp]
  · intro s t hs hp
    simp [formatDate, hs, hp]

/-- Witness for C10 on a date environment recognising one date string. -/
theorem formatDate_total_spec_witness :
    formatDate dateEnvOne none = "" ∧
    formatDate dateEnvOne (some "") = "" ∧
    formatDate dateEnvOne (some "not-a-date") = "not-a-date" ∧
    formatDate dateEnvOne (some "2025-07-15") = "Jul 15, 2025" := by
  have h := formatDate_total_spec dateEnvOne
  exact ⟨h.1, h.2.1, h.2.2.1 "not-a-date" (by decide) rfl,
    h.2.2.2 "2025-07-15" 0 (by decide) rfl⟩
